import Mathlib

/-!
Shallow embedding of the JQuantsAPI repository (tak34/JQuantsAPI):
the paginated retrieval client in `lib/jquantsapi.py` and the incremental
merge pipelines in `main_local.py` / `main_s3.py`, together with proofs of
the behavioural claims about them.

Conventions of the embedding:
* timestamps are natural numbers (seconds); dates are natural numbers (days);
* one JSON record is an association list from field name to raw string value;
* a pandas DataFrame is a column-name sequence plus a row list (`DF`);
* pandas `sort_values` is modelled as a stable insertion sort; pandas'
  default single-column sort kind (`quicksort`) does not promise a stable
  order among equal keys, and no theorem below depends on the tie order
  this model fixes;
* fallible code (`KeyError`, `raise_for_status`, `MaxRetryError`) returns
  `Option`/flags instead of raising.
-/

namespace JQ

/-! ### Generic list machinery: stable insertion sort and last-kept dedup -/

/-- Stable insertion of `r` into `l`: `r` is placed before the first element
`x` with `lt x r = false`, i.e. after every strictly smaller prefix. -/
def insertBy (lt : α → α → Bool) (r : α) : List α → List α
  | [] => [r]
  | x :: xs => if lt x r then x :: insertBy lt r xs else r :: x :: xs

/-- Stable insertion sort (model of `pandas.sort_values`, ascending).
Caveat: pandas' default single-column sort kind is `quicksort`, which does
not promise stability, so the relative order of equal keys in the real
program is unspecified; the theorems below use this model only in ways
that do not depend on the tie order. -/
def sortBy (lt : α → α → Bool) : List α → List α
  | [] => []
  | x :: xs => insertBy lt x (sortBy lt xs)

/-- Model of `pandas.drop_duplicates(subset=key, keep="last")`: keep an
element only if no later element has an `eq`-equal key; survivors keep
their relative order (the position of the last occurrence). -/
def dedupLastBy (eq : α → α → Bool) : List α → List α
  | [] => []
  | x :: xs => if xs.any (eq x) then dedupLastBy eq xs else x :: dedupLastBy eq xs

/-- Association-list lookup, model of reading one field of a JSON object
(`obj[key]` returning `None`-as-`none` on a missing key). -/
def lookupField (key : String) : List (String × β) → Option β
  | [] => none
  | (k, v) :: rest => if k = key then some v else lookupField key rest

/-! ### RetryingHttpClient — `JQuantsAPI._request_session` / `_get`
(`lib/jquantsapi.py` lines 49-92).

`_request_session` installs `urllib3.util.Retry(total=3,
status_forcelist=[429, 500, 502, 503, 504], allowed_methods=["HEAD", "GET",
"OPTIONS"])`.  urllib3 semantics: `total` is the number of *retries*; a
response whose status is in the forcelist consumes one retry, and when the
budget is exhausted `MaxRetryError` is raised; a response whose status is
not in the forcelist is returned at once.  `_get` then calls
`raise_for_status`, which raises on any 4xx/5xx status. -/

/-- The retry-eligible statuses of `_request_session` (`status_forcelist`). -/
def status_forcelist : List Nat := [429, 500, 502, 503, 504]

/-- One GET through the retrying session.  `responses` is the sequence of
HTTP statuses the server would answer on successive attempts; the result is
`some (status, attempts)` for the first status outside the forcelist, or
`none` when the retry budget (`retries` remaining retries) is exhausted
(`MaxRetryError`). -/
def retryGo : Nat → List Nat → Option (Nat × Nat)
  | _, [] => none
  | retries, s :: rest =>
    if s ∈ status_forcelist then
      match retries with
      | 0 => none
      | n + 1 => (retryGo n rest).map (fun p => (p.1, p.2 + 1))
    else some (s, 1)

/-- `session.get` as configured by `_request_session()`: `Retry(total=3, ...)`. -/
def request_session_get (responses : List Nat) : Option (Nat × Nat) :=
  retryGo 3 responses

/-- `JQuantsAPI._get`: the session GET followed by `raise_for_status()`
(which raises on any status `≥ 400`).  Returns the final status and the
number of attempts made, or `none` on failure. -/
def get_with_status (responses : List Nat) : Option (Nat × Nat) :=
  match request_session_get responses with
  | none => none
  | some (s, k) => if 400 ≤ s then none else some (s, k)

/-! ### PaginatedFetcher — the `while "pagination_key" in ret.json()` loops
(`lib/jquantsapi.py`; e.g. `get_prices_daily_quotes` lines 257-266,
`get_options` lines 610-619, `get_dividend` lines 1079-1088).

A response page carries named record arrays plus an optional
`pagination_key`.  The source reads `result_key` from the first page and
`contKey` from every continuation page; for most endpoints the two names
coincide, but `get_options` drains continuation pages from `"daily_quotes"`
and `get_dividend` from `"breakdown"`. -/

/-- One JSON response page: named record arrays and the optional cursor. -/
structure Page where
  fields : List (String × List Nat)
  pagination_key : Option String
  deriving DecidableEq

/-- Drain the continuation pages: while the previous response carried a
`pagination_key`, fetch the next page and append its `contKey` array.
`none` models a `KeyError` (the named array is absent) or a truncated
response trace while the cursor is still present. -/
def drainPages (contKey : String) (acc : List Nat) :
    Option String → List Page → Option (List Nat)
  | none, _ => some acc
  | some _, [] => none
  | some _, p :: rest =>
    match lookupField contKey p.fields with
    | none => none
    | some recs => drainPages contKey (acc ++ recs) p.pagination_key rest

/-- The pagination loop as written in the source: read `result_key` from the
first page, then append `contKey` from every continuation page until a page
carries no `pagination_key`. -/
def fetch_all (result_key contKey : String) : List Page → Option (List Nat)
  | [] => none
  | p :: rest =>
    match lookupField result_key p.fields with
    | none => none
    | some recs => drainPages contKey recs p.pagination_key rest

/-- `get_options` record collection (`lib/jquantsapi.py` lines 610-619):
first page reads `"index_option"`, continuation pages read `"daily_quotes"`. -/
def get_options_records (pages : List Page) : Option (List Nat) :=
  fetch_all "index_option" "daily_quotes" pages

/-- `get_dividend` record collection (`lib/jquantsapi.py` lines 1079-1088):
first page reads `"dividend"`, continuation pages read `"breakdown"`. -/
def get_dividend_records (pages : List Page) : Option (List Nat) :=
  fetch_all "dividend" "breakdown" pages

/-- `get_prices_daily_quotes` record collection (lines 257-266): both the
first page and the continuation pages read `"daily_quotes"`. -/
def get_prices_records (pages : List Page) : Option (List Nat) :=
  fetch_all "daily_quotes" "daily_quotes" pages

/-- Modelled from the spec: the paginated fetch as specified — "implementers
should fetch the declared `result_key` for every page, not vary it"
(spec §4.3); the same loop with the declared key used on every page. -/
def spec_fetch_all (result_key : String) (pages : List Page) : Option (List Nat) :=
  fetch_all result_key result_key pages

/-! ### DatasetNormalizer — per-endpoint column schemas and normalization
(`lib/jquantsapi.py`: `get_prices_daily_quotes` lines 268-319,
`get_listed_info` lines 162-190). -/

/-- One raw JSON record: field name to raw string value. -/
abbrev Rec := List (String × String)

/-- A pandas DataFrame: a column-label sequence (duplicates possible) and
the underlying rows. -/
structure DF where
  cols : List String
  rows : List Rec
  deriving DecidableEq

/-- The declared column list of `get_prices_daily_quotes` (lines 269-314):
16 base columns, plus 25 more under `premium_plan`. -/
def prices_cols (premium_plan : Bool) : List String :=
  ["Date", "Code", "Open", "High", "Low", "Close", "UpperLimit", "LowerLimit",
   "Volume", "TurnoverValue", "AdjustmentFactor", "AdjustmentOpen",
   "AdjustmentHigh", "AdjustmentLow", "AdjustmentClose", "AdjustmentVolume"] ++
  (if premium_plan then
    ["MorningOpen", "MorningHigh", "MorningLow", "MorningClose",
     "MorningUpperLimit", "MorningLowerLimit", "MorningVolume",
     "MorningTurnoverValue", "MorningAdjustmentOpen", "MorningAdjustmentHigh",
     "MorningAdjustmentLow", "MorningAdjustmentClose", "MorningAdjustmentVolume",
     "AfternoonOpen", "AfternoonHigh", "AfternoonLow", "AfternoonClose",
     "AfternoonUpperLimit", "AfternoonLowerLimit", "AfternoonVolume",
     "AfternoonAdjustmentOpen", "AfternoonAdjustmentHigh",
     "AfternoonAdjustmentLow", "AfternoonAdjustmentClose",
     "AfternoonAdjustmentVolume"]
   else [])

/-- The column list of `get_listed_info` (lines 166-183): the base list
(with `CompanyName`, `Sector17CodeName`, `Sector33CodeName` commented out in
the source) already names `MarginCode`/`MarginCodeName`, and the
`if not light_plan` branch appends the same two names again. -/
def listed_info_cols (light_plan : Bool) : List String :=
  ["Date", "Code", "CompanyNameEnglish", "Sector17Code", "Sector33Code",
   "ScaleCategory", "MarketCode", "MarketCodeName", "MarginCode",
   "MarginCodeName"] ++
  (if light_plan then [] else ["MarginCode", "MarginCodeName"])

/-- `col` is present in `pd.DataFrame.from_dict(records)` — i.e. at least
one record carries the field (the frame's column set is the key union). -/
def colPresent (records : List Rec) (col : String) : Bool :=
  records.any (fun r => (lookupField col r).isSome)

/-- `pd.to_datetime(df[col], format="%Y-%m-%d")` succeeds: every non-missing
value of the column parses (a missing value becomes `NaT`, not an error).
`parseDate` abstracts `strptime` with the fixed format. -/
def dateColOk (parseDate : String → Option Nat) (col : String)
    (records : List Rec) : Bool :=
  records.all (fun r =>
    match lookupField col r with
    | none => true
    | some s => (parseDate s).isSome)

/-- Ordering on an optional sort-key value: present values ascend, missing
values (`NaN`/`NaT`) sort last, as in pandas. -/
def optNatLt : Option Nat → Option Nat → Bool
  | some a, some b => a < b
  | some _, none => true
  | none, _ => false

/-- Ordering on an optional string sort-key value, missing values last. -/
def optStrLt : Option String → Option String → Bool
  | some a, some b => a < b
  | some _, none => true
  | none, _ => false

/-- Row ordering of `sort_values(["Date", "Code"])` after the `Date` column
has been parsed: by parsed date, ties by `Code`. -/
def priceRecLt (parseDate : String → Option Nat) (a b : Rec) : Bool :=
  let da := (lookupField "Date" a).bind parseDate
  let db := (lookupField "Date" b).bind parseDate
  if da = db then optStrLt (lookupField "Code" a) (lookupField "Code" b)
  else optNatLt da db

/-- Row ordering of `sort_values("Code")`. -/
def codeRecLt (a b : Rec) : Bool :=
  optStrLt (lookupField "Code" a) (lookupField "Code" b)

/-- The normalization stage of `get_prices_daily_quotes` (lines 268-319),
after pagination: an empty record list returns
`pd.DataFrame([], columns=cols)`; otherwise the `Date` column is parsed
(`none` on a parse failure), rows are sorted by `(Date, Code)`, and
`df[cols]` selects the declared columns (`none` models the `KeyError` when
a declared column is absent from the response). -/
def get_prices_daily_quotes_norm (parseDate : String → Option Nat)
    (premium_plan : Bool) (records : List Rec) : Option DF :=
  if records.length = 0 then some ⟨prices_cols premium_plan, []⟩
  else if ((prices_cols premium_plan).all (colPresent records)) &&
      dateColOk parseDate "Date" records then
    some ⟨prices_cols premium_plan, sortBy (priceRecLt parseDate) records⟩
  else none

/-- The normalization stage of `get_listed_info` (lines 162-190): empty
records return `pd.DataFrame([], columns=cols)`; otherwise `Date` is
parsed, rows are sorted by `Code`, and `df[cols]` selects the declared
columns. -/
def get_listed_info_norm (parseDate : String → Option Nat)
    (light_plan : Bool) (records : List Rec) : Option DF :=
  if records.length = 0 then some ⟨listed_info_cols light_plan, []⟩
  else if ((listed_info_cols light_plan).all (colPresent records)) &&
      dateColOk parseDate "Date" records then
    some ⟨listed_info_cols light_plan, sortBy codeRecLt records⟩
  else none

/-! ### RangeFetchOrchestrator — `get_price_range`
(`lib/jquantsapi.py` lines 321-356): one `get_prices_daily_quotes` call per
day in the range, then `None` when `buff` is empty or its single element has
no rows, else `pd.concat(buff)`. -/

/-- `pd.concat` of two frames: column labels are the first frame's followed
by the second frame's new ones (outer join), rows are appended. -/
def concatDF (a b : DF) : DF :=
  ⟨a.cols ++ b.cols.filter (fun c => !(a.cols.contains c)), a.rows ++ b.rows⟩

/-- `pd.concat(buff)` over a non-empty buffer. -/
def concatAll (d : DF) (rest : List DF) : DF :=
  rest.foldl concatDF d

/-- `get_price_range` (lines 337-356): fetch each date of the range,
return `None` for an empty range, `None` for a single all-empty unit,
otherwise the concatenation of every per-date frame. -/
def get_price_range (fetchDay : Nat → DF) (dates : List Nat) : Option DF :=
  match dates.map fetchDay with
  | [] => none
  | [df] => if df.rows.length = 0 then none else some df
  | df :: rest => some (concatAll df rest)

/-! ### IncrementalMergePipeline (local) — MERGE of `main_local.py`
(price table lines 127-133, list table lines 62-69): concatenate prior and
new rows, `drop_duplicates(subset=["Code", "Date"], keep="last")`, and
`sort_values(by="Date")`. -/

/-- One persisted row of the price/list tables: the business key
`(Code, Date)` plus a payload standing for the remaining columns. -/
structure Row where
  code : Nat
  date : Nat
  val : Nat
  deriving DecidableEq

/-- Equality on the business key `["Code", "Date"]`. -/
def rowKeyEq (a b : Row) : Bool := a.code == b.code && a.date == b.date

/-- The `sort_values(by="Date")` ordering. -/
def rowDateLt (a b : Row) : Bool := a.date < b.date

/-- `MERGE` of `main_local.py` lines 128-133:
`pd.concat((prior, new)).drop_duplicates(subset=["Code", "Date"],
keep="last").sort_values(by="Date")`.  The final sort is the stable model
of `sortBy`; the source's `sort_values` default kind leaves the relative
order of equal-date rows unspecified. -/
def merge_table (prior new : List Row) : List Row :=
  sortBy rowDateLt (dedupLastBy rowKeyEq (prior ++ new))

/-! ### IncrementalMergePipeline (s3) — list-table MERGE of `main_s3.py`
(lines 92-102): the same concat/dedup/sort on lowercase keys, followed by
`assert df_list.shape[1] == df_l.shape[1]` — the merged column count is
compared against the NEW frame `df_l` — and only then `tsdb.upload`. -/

/-- Business-key equality of the s3 list merge (`["code", "date"]`). -/
def s3RecKeyEq (a b : Rec) : Bool :=
  lookupField "code" a == lookupField "code" b &&
  lookupField "date" a == lookupField "date" b

/-- `sort_values(by="date")` ordering of the s3 list merge. -/
def s3DateLt (a b : Rec) : Bool :=
  optStrLt (lookupField "date" a) (lookupField "date" b)

/-- The merged frame of `main_s3.py` lines 92-97: `pd.concat` (outer column
union) then dedup on `["code", "date"]` keeping the last, sorted by date. -/
def s3_list_merge (prior new : DF) : DF :=
  ⟨prior.cols ++ new.cols.filter (fun c => !(prior.cols.contains c)),
   sortBy s3DateLt (dedupLastBy s3RecKeyEq (prior.rows ++ new.rows))⟩

/-- Lines 92-102 as a store transition: merge, `assert merged.shape[1] ==
new.shape[1]`, and upload only when the assert passes.  The result is the
persisted frame afterwards and whether `tsdb.upload` was reached (`false`
means the `AssertionError` aborted the run with the prior still stored). -/
def s3_list_step (prior new : DF) : DF × Bool :=
  if (s3_list_merge prior new).cols.length = new.cols.length then
    (s3_list_merge prior new, true)
  else (prior, false)

/-! ### TokenManager — `JQuantsAPI.__init__` / `_base_headers` /
`get_refresh_token` / `get_id_token` (`lib/jquantsapi.py` lines 28-141). -/

/-- The mutable token state of a `JQuantsAPI` instance: `_refresh_token`
(empty string = not yet obtained), `_id_token`, `_id_token_expire`. -/
structure TMState where
  refresh_token : String
  id_token : String
  id_token_expire : Nat
  deriving DecidableEq

/-- `__init__` (lines 36-38): empty tokens, expiry initialised to the
construction instant (`pd.Timestamp.utcnow()`). -/
def initTM (t0 : Nat) : TMState :=
  ⟨"", "", t0⟩

/-- `pd.Timedelta(23, unit="hour")` in seconds. -/
def twentyThreeHours : Nat := 23 * 3600

/-- `get_refresh_token` (lines 116-126): one `token/auth_user` POST whose
`refreshToken` field (`srvRefresh`) is stored. -/
def get_refresh_token (srvRefresh : String) (st : TMState) : TMState :=
  { st with refresh_token := srvRefresh }

/-- `get_id_token` (lines 128-141): return the held token while
`_id_token_expire > utcnow()`; otherwise one `token/auth_refresh` POST whose
`idToken` (`srvId`) is stored with expiry `now + 23h`.  Result: the token,
the new state, and the number of `auth_refresh` exchanges performed. -/
def get_id_token (now : Nat) (srvId : String) (st : TMState) :
    String × TMState × Nat :=
  if st.id_token_expire > now then (st.id_token, st, 0)
  else (srvId, { st with id_token := srvId,
                         id_token_expire := now + twentyThreeHours }, 1)

/-- The result of `_base_headers`: the `Authorization` header, the state
afterwards, and the number of `auth_user` / `auth_refresh` exchanges. -/
structure HeaderResult where
  header : String
  state : TMState
  ex_user : Nat
  ex_refresh : Nat
  deriving DecidableEq

/-- `_base_headers` (lines 40-47): fetch a refresh token first if none is
held, then build `"Bearer " + get_id_token()`. -/
def base_headers (now : Nat) (srvRefresh srvId : String) (st : TMState) :
    HeaderResult :=
  let (st1, u) :=
    if st.refresh_token = "" then (get_refresh_token srvRefresh st, 1)
    else (st, 0)
  let (tok, st2, r) := get_id_token now srvId st1
  ⟨"Bearer " ++ tok, st2, u, r⟩

/-! ### The price section of `main_local.py` (lines 106-156): window
computation, fetch, merge, persist-then-remove. -/

/-- Observable events of one table-update run. -/
inductive Ev where
  | httpFetch
  | wroteNew
  | removedOld
  deriving DecidableEq

/-- Outcome of one table-update run. -/
inductive Outcome where
  | updated
  | noNewData
  | failed
  deriving DecidableEq

/-- `start_dt` (lines 112-114): the last persisted date plus one day. -/
def window_start (lastDay : Int) : Int := lastDay + 1

/-- `end_dt` (lines 118-121): now, moved back one day when the local hour
precedes the 19:00 availability cutoff. -/
def window_end (nowDay : Int) (nowHour : Nat) : Int :=
  if nowHour < 19 then nowDay - 1 else nowDay

/-- The price section of `main_local.py` (lines 106-156) as one run:
compute the window; when `start_dt <= end_dt`, call `get_price_range`
(`fetch` is its result: `Except.error` a raised HTTP error, `.ok none` the
no-data sentinel, `.ok (some rows)` new rows); on new rows write the new
pickle (`writeOk` tells whether `to_pickle` succeeds) and only then
`os.remove` the old file.  Returns the event trace, the artifact store
afterwards (initially `[oldPath]`), and the outcome. -/
def price_section (lastDay nowDay : Int) (nowHour : Nat)
    (fetch : Except Unit (Option (List Row))) (writeOk : Bool)
    (oldPath newPath : String) : List Ev × List String × Outcome :=
  if window_start lastDay ≤ window_end nowDay nowHour then
    match fetch with
    | .error _ => ([.httpFetch], [oldPath], .failed)
    | .ok none => ([.httpFetch], [oldPath], .noNewData)
    | .ok (some _) =>
      if writeOk then
        ([.httpFetch, .wroteNew, .removedOld], [newPath], .updated)
      else ([.httpFetch], [oldPath], .failed)
  else ([], [oldPath], .noNewData)

/-! ## Theorems -/

/-- Helper: a session GET with `retries` remaining retries makes at most
`retries + 1` attempts, and the returned status is never in the forcelist. -/
theorem retryGo_bound (rs : List Nat) : ∀ (n s k : Nat),
    retryGo n rs = some (s, k) → k ≤ n + 1 ∧ s ∉ status_forcelist := by
  induction rs with
  | nil => intro n s k h; simp [retryGo] at h
  | cons r rest ih =>
    intro n s k h
    rw [retryGo.eq_def] at h
    by_cases hr : r ∈ status_forcelist
    · cases n with
      | zero => simp [hr] at h
      | succ m =>
        simp only [if_pos hr, Option.map_eq_some'] at h
        obtain ⟨⟨s', k'⟩, hp, he⟩ := h
        obtain ⟨hs, hk⟩ := Prod.mk.injEq .. ▸ he
        obtain ⟨hb, hf⟩ := ih m s' k' hp
        subst hs hk
        exact ⟨by omega, hf⟩
    · simp only [if_neg hr, Option.some.injEq, Prod.mk.injEq] at h
      obtain ⟨hs, hk⟩ := h
      subst hs hk
      exact ⟨by omega, hr⟩

/-- C1 (code bug): the claim says every paginated endpoint reads its
declared `result_key` on every page.  `get_options` instead reads
`"daily_quotes"` and `get_dividend` reads `"breakdown"` on continuation
pages (`lib/jquantsapi.py` lines 619 and 1088), so on a well-formed
two-page response — whose pages carry the declared array only — the fetch
hits a `KeyError` (`none`), while the loop with the declared key used on
every page returns both pages' records in arrival order. -/
theorem C1_continuation_key_bug :
    get_options_records
      [⟨[("index_option", [1])], some "k"⟩, ⟨[("index_option", [2])], none⟩] = none ∧
    spec_fetch_all "index_option"
      [⟨[("index_option", [1])], some "k"⟩, ⟨[("index_option", [2])], none⟩] =
      some [1, 2] ∧
    get_dividend_records
      [⟨[("dividend", [3])], some "k"⟩, ⟨[("dividend", [4])], none⟩] = none ∧
    spec_fetch_all "dividend"
      [⟨[("dividend", [3])], some "k"⟩, ⟨[("dividend", [4])], none⟩] =
      some [3, 4] := by
  decide

/-- C2 counterexample: the claim caps the session at 3 attempts total
(1 initial + 2 retries), but `_request_session` passes `Retry(total=3)`,
which is 3 *retries*: a GET answered 503, 503, 503, 200 succeeds with the
200 payload on the 4th attempt instead of failing after 3. -/
theorem C2_counterexample :
    request_session_get [503, 503, 503, 200] = some (200, 4) ∧ ¬(4 ≤ 3) := by
  decide

/-- C2 (amended): the session retries only on statuses in
`{429, 500, 502, 503, 504}`, making at most 4 attempts total (1 initial +
3 retries); a GET returning 503 twice then 200 yields the 200 payload after
exactly 3 attempts; and a status outside the retry list is returned after a
single attempt (after which `raise_for_status` fails immediately on 4xx/5xx). -/
theorem C2_retry_policy :
    (∀ rs s k, request_session_get rs = some (s, k) →
      k ≤ 4 ∧ s ∉ status_forcelist) ∧
    request_session_get [503, 503, 200] = some (200, 3) ∧
    get_with_status [503, 503, 200] = some (200, 3) ∧
    (∀ s rest, s ∉ status_forcelist →
      request_session_get (s :: rest) = some (s, 1)) ∧
    get_with_status [404, 200] = none := by
  refine ⟨?_, by decide, by decide, ?_, by decide⟩
  · intro rs s k h
    exact retryGo_bound rs 3 s k h
  · intro s rest hs
    simp [request_session_get, retryGo, hs]

/-- Witness for C2: concrete instantiations discharging each hypothesis. -/
theorem C2_retry_policy_witness :
    (1 ≤ 4 ∧ 404 ∉ status_forcelist) ∧
    request_session_get [404] = some (404, 1) :=
  ⟨C2_retry_policy.1 [404] 404 1 (by decide),
   C2_retry_policy.2.2.2.1 404 [] (by decide)⟩

/-- C3 counterexample: a two-day range whose units both return the empty
(schema-only) frame yields zero total rows, yet `get_price_range` returns
the concatenated zero-row dataset (`len(buff) >= 2` skips both `None`
branches, lines 349-356) — not the `None` sentinel the claim requires. -/
theorem C3_counterexample :
    get_price_range (fun _ => ⟨prices_cols true, []⟩) [1, 2] =
      some ⟨prices_cols true, []⟩ ∧
    (DF.mk (prices_cols true) []).rows.length = 0 ∧
    get_price_range (fun _ => ⟨prices_cols true, []⟩) [1, 2] ≠ none := by
  refine ⟨?_, rfl, ?_⟩ <;> decide

/-- C3 (amended): `get_price_range` returns the `None` sentinel exactly for
an empty range or for a single date unit with zero rows; a range of two or
more date units always returns the concatenation — a dataset, possibly with
zero rows — even when every unit is empty. -/
theorem C3_no_data_sentinel (fetchDay : Nat → DF) :
    get_price_range fetchDay [] = none ∧
    (∀ d, (fetchDay d).rows.length = 0 → get_price_range fetchDay [d] = none) ∧
    (∀ d, (fetchDay d).rows.length ≠ 0 →
      get_price_range fetchDay [d] = some (fetchDay d)) ∧
    (∀ d1 d2 rest, get_price_range fetchDay (d1 :: d2 :: rest) =
      some (concatAll (fetchDay d1) ((d2 :: rest).map fetchDay))) := by
  refine ⟨rfl, ?_, ?_, fun d1 d2 rest => rfl⟩
  · intro d h; simp [get_price_range, h]
  · intro d h; simp [get_price_range, h]

/-- Witness for C3 (amended): a single empty unit yields `none`, a single
non-empty unit yields the unit itself. -/
theorem C3_no_data_sentinel_witness :
    get_price_range (fun _ => DF.mk [] []) [5] = none ∧
    get_price_range (fun _ => DF.mk ["Code"] [[("Code", "7203")]]) [5] =
      some (DF.mk ["Code"] [[("Code", "7203")]]) :=
  ⟨(C3_no_data_sentinel (fun _ => DF.mk [] [])).2.1 5 (by decide),
   (C3_no_data_sentinel (fun _ => DF.mk ["Code"] [[("Code", "7203")]])).2.2.1 5
     (by decide)⟩

/-- C4 counterexample: the claim says the post-merge invariant compares the
merged column count with the PRIOR dataset's and errors on disagreement.
With a prior of 2 columns and a new fetch of 3 columns the merged frame has
3 columns — the invariant against the prior is violated — yet the source's
`assert df_list.shape[1] == df_l.shape[1]` (main_s3.py line 99) compares
against the NEW frame, passes, and the upload is reached. -/
theorem C4_counterexample :
    (s3_list_merge ⟨["code", "date"], []⟩ ⟨["code", "date", "x"], []⟩).cols.length ≠
      (DF.mk ["code", "date"] []).cols.length ∧
    s3_list_step ⟨["code", "date"], []⟩ ⟨["code", "date", "x"], []⟩ =
      (⟨["code", "date", "x"], []⟩, true) := by
  decide

/-- C4 (amended): after MERGE the asserted invariant is that the resulting
column count equals the NEW fetched frame's column count; when it is
violated the `AssertionError` aborts the run before `tsdb.upload`, leaving
the prior persisted dataset untouched, and when it holds the merged frame
is uploaded. -/
theorem C4_schema_guard (prior new : DF) :
    ((s3_list_merge prior new).cols.length ≠ new.cols.length →
      s3_list_step prior new = (prior, false)) ∧
    ((s3_list_merge prior new).cols.length = new.cols.length →
      s3_list_step prior new = (s3_list_merge prior new, true)) := by
  constructor <;> intro h <;> simp [s3_list_step, h]

/-- Witness for C4 (amended): the spec scenario — the new frame has fewer
columns than the prior — trips the assert and leaves the store unchanged. -/
theorem C4_schema_guard_witness :
    s3_list_step ⟨["code", "date", "x"], []⟩ ⟨["code", "date"], []⟩ =
      (⟨["code", "date", "x"], []⟩, false) :=
  (C4_schema_guard ⟨["code", "date", "x"], []⟩ ⟨["code", "date"], []⟩).1 (by decide)

/-- C6: on the first `_base_headers` call of a freshly constructed client
(constructed at `t0`, called at `t1 ≥ t0`, with a non-empty server-side
refresh token), exactly one `auth_user` and one `auth_refresh` exchange run
and the new expiry is `t1 + 23h`; any later call at `t2` within the 23-hour
window returns the held id token with zero further exchanges and leaves the
state unchanged. -/
theorem C6_token_lifecycle (t0 t1 t2 : Nat) (rtok idtok rtok2 idtok2 : String)
    (h01 : t0 ≤ t1) (hr : rtok ≠ "") (h2 : t2 < t1 + twentyThreeHours) :
    base_headers t1 rtok idtok (initTM t0) =
      ⟨"Bearer " ++ idtok, ⟨rtok, idtok, t1 + twentyThreeHours⟩, 1, 1⟩ ∧
    base_headers t2 rtok2 idtok2 ⟨rtok, idtok, t1 + twentyThreeHours⟩ =
      ⟨"Bearer " ++ idtok, ⟨rtok, idtok, t1 + twentyThreeHours⟩, 0, 0⟩ := by
  constructor
  · have hexp : ¬(t0 > t1) := by omega
    simp [base_headers, initTM, get_refresh_token, get_id_token, hexp]
  · have hexp : t1 + twentyThreeHours > t2 := by omega
    simp [base_headers, get_id_token, hr, hexp]

/-- Witness for C6 at concrete times and tokens. -/
theorem C6_token_lifecycle_witness :
    base_headers 5 "r" "i" (initTM 0) =
      ⟨"Bearer " ++ "i", ⟨"r", "i", 5 + twentyThreeHours⟩, 1, 1⟩ ∧
    base_headers 100 "r2" "i2" ⟨"r", "i", 5 + twentyThreeHours⟩ =
      ⟨"Bearer " ++ "i", ⟨"r", "i", 5 + twentyThreeHours⟩, 0, 0⟩ :=
  C6_token_lifecycle 0 5 100 "r" "i" "r2" "i2" (by decide) (by decide) (by decide)

/-- C7: in the price section of `main_local.py` the window is `start_dt =
last persisted date + 1 day` and `end_dt = now`, moved back a day when the
hour precedes the 19:00 cutoff; whenever `start_dt > end_dt` the run ends
in the no-new-data outcome with no HTTP call issued and the artifact store
untouched. -/
theorem C7_window_no_op (lastDay nowDay : Int) (nowHour : Nat)
    (fetch : Except Unit (Option (List Row))) (writeOk : Bool)
    (oldPath newPath : String) :
    window_start lastDay = lastDay + 1 ∧
    window_end nowDay nowHour = (if nowHour < 19 then nowDay - 1 else nowDay) ∧
    (window_start lastDay > window_end nowDay nowHour →
      price_section lastDay nowDay nowHour fetch writeOk oldPath newPath =
        ([], [oldPath], Outcome.noNewData)) := by
  refine ⟨rfl, rfl, fun h => ?_⟩
  unfold price_section
  rw [if_neg (by omega)]

/-- Witness for C7: last persisted day 10, now day 11 at 07:00 — the cutoff
moves the window end to day 10, below the window start 11; no-op. -/
theorem C7_window_no_op_witness :
    price_section 10 11 7 (Except.ok (some [⟨1, 1, 1⟩])) true "old" "new" =
      ([], ["old"], Outcome.noNewData) :=
  (C7_window_no_op 10 11 7 (Except.ok (some [⟨1, 1, 1⟩])) true "old" "new").2.2
    (by decide)

/-- C8: in the price section's PERSIST step the old pickle is removed only
after the new one is written — a `removedOld` event occurs only on a
successful write m, after `wroteNew`; on a write failure the old artifact
remains stored; and on a fetch failure (failure before PERSIST) the store
is exactly the untouched prior artifact. -/
theorem C8_persist_order (lastDay nowDay : Int) (nowHour : Nat)
    (fetch : Except Unit (Option (List Row))) (writeOk : Bool)
    (oldPath newPath : String) :
    (Ev.removedOld ∈
        (price_section lastDay nowDay nowHour fetch writeOk oldPath newPath).1 →
      writeOk = true ∧
      (price_section lastDay nowDay nowHour fetch writeOk oldPath newPath).1 =
        [Ev.httpFetch, Ev.wroteNew, Ev.removedOld]) ∧
    (writeOk = false →
      oldPath ∈
        (price_section lastDay nowDay nowHour fetch writeOk oldPath newPath).2.1) ∧
    (fetch = Except.error () →
      (price_section lastDay nowDay nowHour fetch writeOk oldPath newPath).2.1 =
        [oldPath]) := by
  unfold price_section
  split
  · rcases fetch with e | o
    · simp
    · rcases o with _ | rows
      · simp
      · cases writeOk <;> simp
  · simp

/-- Witness for C8: the three hypotheses discharged at concrete runs. -/
theorem C8_persist_order_witness :
    (true = true ∧
      (price_section 10 12 7 (Except.ok (some [⟨1, 1, 1⟩])) true "old" "new").1 =
        [Ev.httpFetch, Ev.wroteNew, Ev.removedOld]) ∧
    "old" ∈
      (price_section 10 12 7 (Except.ok (some [⟨1, 1, 1⟩])) false "old" "new").2.1 ∧
    (price_section 10 12 7 (Except.error ()) true "old" "new").2.1 = ["old"] :=
  ⟨(C8_persist_order 10 12 7 (Except.ok (some [⟨1, 1, 1⟩])) true "old" "new").1
      (by decide),
   (C8_persist_order 10 12 7 (Except.ok (some [⟨1, 1, 1⟩])) false "old" "new").2.1
      rfl,
   (C8_persist_order 10 12 7 (Except.error ()) true "old" "new").2.2 rfl⟩

/-- Helper: whenever the prices normalizer returns a frame, its column
sequence is the declared schema. -/
theorem prices_norm_cols (parseDate : String → Option Nat) (premium : Bool)
    (records : List Rec) (df : DF)
    (h : get_prices_daily_quotes_norm parseDate premium records = some df) :
    df.cols = prices_cols premium := by
  unfold get_prices_daily_quotes_norm at h
  split at h
  · exact (Option.some.injEq .. ▸ h) ▸ rfl
  · split at h
    · exact (Option.some.injEq .. ▸ h) ▸ rfl
    · exact absurd h (by simp)

/-- Helper: whenever the listed-info normalizer returns a frame, its column
sequence is the declared schema. -/
theorem listed_norm_cols (parseDate : String → Option Nat) (light : Bool)
    (records : List Rec) (df : DF)
    (h : get_listed_info_norm parseDate light records = some df) :
    df.cols = listed_info_cols light := by
  unfold get_listed_info_norm at h
  split at h
  · exact (Option.some.injEq .. ▸ h) ▸ rfl
  · split at h
    · exact (Option.some.injEq .. ▸ h) ▸ rfl
    · exact absurd h (by simp)

/-- C9: both cited normalizers return, on zero records, a zero-row frame
that still carries the full declared column schema, and every frame they
return — zero rows or N rows — carries exactly the declared column
sequence, so the returned column set never depends on the row count. -/
theorem C9_empty_schema :
    (∀ parseDate premium records df,
      get_prices_daily_quotes_norm parseDate premium records = some df →
        df.cols = prices_cols premium) ∧
    (∀ parseDate premium,
      get_prices_daily_quotes_norm parseDate premium [] =
        some ⟨prices_cols premium, []⟩) ∧
    (∀ parseDate light records df,
      get_listed_info_norm parseDate light records = some df →
        df.cols = listed_info_cols light) ∧
    (∀ parseDate light,
      get_listed_info_norm parseDate light [] =
        some ⟨listed_info_cols light, []⟩) := by
  refine ⟨prices_norm_cols, ?_, listed_norm_cols, ?_⟩
  · intro parseDate premium; rfl
  · intro parseDate light; rfl

/-- Witness for C9: a one-record response and the empty response yield the
same declared column sequence. -/
theorem C9_empty_schema_witness :
    (DF.mk (prices_cols false)
      (sortBy (priceRecLt (fun _ => some 0))
        [(prices_cols false).map (fun c => (c, "1"))])).cols =
      prices_cols false ∧
    (DF.mk (prices_cols false) []).cols = prices_cols false :=
  ⟨C9_empty_schema.1 (fun _ => some 0) false
      [(prices_cols false).map (fun c => (c, "1"))] _ (by decide),
   C9_empty_schema.1 (fun _ => some 0) false [] _ (by decide)⟩

/-- C10: with `light_plan=False` the `get_listed_info` column sequence
contains `MarginCode` and `MarginCodeName` twice each (once in the base
list, appended again by the non-light-plan branch), and every frame the
normalizer returns — for empty and non-empty responses alike — carries
that duplicated sequence. -/
theorem C10_duplicate_margin_cols :
    (listed_info_cols false).count "MarginCode" = 2 ∧
    (listed_info_cols false).count "MarginCodeName" = 2 ∧
    (∀ parseDate records df,
      get_listed_info_norm parseDate false records = some df →
        df.cols.count "MarginCode" = 2 ∧ df.cols.count "MarginCodeName" = 2) := by
  refine ⟨by decide, by decide, ?_⟩
  intro parseDate records df h
  rw [listed_norm_cols parseDate false records df h]
  exact ⟨by decide, by decide⟩

/-- Witness for C10: the duplicated columns on the empty-response frame. -/
theorem C10_duplicate_margin_cols_witness :
    (DF.mk (listed_info_cols false) []).cols.count "MarginCode" = 2 ∧
    (DF.mk (listed_info_cols false) []).cols.count "MarginCodeName" = 2 :=
  C10_duplicate_margin_cols.2.2 (fun _ => some 0) [] (DF.mk (listed_info_cols false) [])
    (by decide)

end JQ
